import Mathlib

/-!
Verification of the Driver Attendance backend (`src/main.py`, `src/schemas.py`).

The repository is a FastAPI application over a MongoDB-like document store.
We shallowly embed the documents as association lists of string keys to a
small value type, the two collections (`driver`, `attendance`) as lists of
documents in natural (insertion) order, and each request handler as a pure
Lean function from its inputs and the database state to a result.

The data-access helper module (`database.py`, providing `create_document`
and `get_documents`) is not part of the provided sources; it is modelled
from the spec as noted on the corresponding definitions.
-/

namespace DriverAttendance

/-- A BSON-like value stored in a document field.  `vOid h` is an ObjectId
whose 12 bytes are rendered by the hex string `h`; `vNull` is Python's
`None` / BSON null; `vTime t` is a datetime (only used for `updated_at`). -/
inductive Value where
  | vStr : String → Value
  | vOid : String → Value
  | vNull : Value
  | vTime : Nat → Value
  deriving DecidableEq, Repr

open Value

/-- A document: a Python dict / BSON document with string keys, kept in
insertion order with unique keys. -/
abbrev Doc := List (String × Value)

/-- Field lookup (`d[k]` / `d.get(k)`). -/
def getField (d : Doc) (k : String) : Option Value :=
  (d.find? (fun p => p.1 == k)).map (·.2)

/-- Python dict assignment `d[k] = v`: overwrite in place when the key is
present, append at the end otherwise. -/
def dictSet (d : Doc) (k : String) (v : Value) : Doc :=
  if (d.find? (fun p => p.1 == k)).isSome then
    d.map (fun p => if p.1 == k then (k, v) else p)
  else
    d ++ [(k, v)]

/-- `str(...)` of a stored value, as used by `serialize_id` on `_id`. -/
def valueToStr : Value → String
  | vStr s => s
  | vOid h => h
  | vNull => "None"
  | vTime t => toString t

/-- `serialize_id` (main.py:23-29): drop the internal `_id` field and append
a public string `id` field with its string form.  An empty/absent document
is returned unchanged, as is a document with no `_id` field. -/
def serialize_id (doc : Doc) : Doc :=
  if doc.isEmpty then doc
  else
    match getField doc "_id" with
    | some v => dictSet (doc.filter (fun p => !(p.1 == "_id"))) "id" (vStr (valueToStr v))
    | none => doc

/-- A decimal digit character. -/
def isDig (c : Char) : Bool := '0' ≤ c && c ≤ '9'

/-- Numeric value of a digit character. -/
def dv (c : Char) : Nat := c.toNat - 48

/-- A hex digit, as accepted by `bytes.fromhex` inside `bson.ObjectId`. -/
def isHexDig (c : Char) : Bool :=
  isDig c || ('a' ≤ c && c ≤ 'f') || ('A' ≤ c && c ≤ 'F')

/-- Whether `bson.ObjectId(s)` succeeds on a string: exactly 24 hex
characters. -/
def isValidObjectId (s : String) : Bool :=
  s.data.length == 24 && s.data.all isHexDig

/-- Lower-case a hex digit (other characters unchanged). -/
def hexLower (c : Char) : Char :=
  match c with
  | 'A' => 'a' | 'B' => 'b' | 'C' => 'c' | 'D' => 'd' | 'E' => 'e' | 'F' => 'f'
  | c => c

/-- Canonical (lower-case hex) form of an ObjectId string: `ObjectId`
compares by the underlying bytes, so two hex strings denote the same id
iff they agree up to case. -/
def oidCanon (s : String) : String := ⟨s.data.map hexLower⟩

/-- The digit character of `n % 10`. -/
def dchar (n : Nat) : Char :=
  match n % 10 with
  | 0 => '0' | 1 => '1' | 2 => '2' | 3 => '3' | 4 => '4'
  | 5 => '5' | 6 => '6' | 7 => '7' | 8 => '8' | _ => '9'

/-- `strftime("%Y-%m-%d")` on a date with year ≤ 9999: zero-padded
4-digit year, 2-digit month and day.  (C strftime on some platforms
renders years below 1000 without padding; we model the padded rendering,
which agrees with CPython's documented format for all 4-digit years.) -/
def formatDate (y m d : Nat) : String :=
  ⟨[dchar (y / 1000), dchar (y / 100), dchar (y / 10), dchar y, '-',
    dchar (m / 10), dchar m, '-', dchar (d / 10), dchar d]⟩

/-- Gregorian leap year, as in Python's `datetime`. -/
def isLeap (y : Nat) : Bool := y % 4 == 0 && (y % 100 != 0 || y % 400 == 0)

/-- Days in a month, as validated by the `datetime` constructor. -/
def daysInMonth (y m : Nat) : Nat :=
  if m == 2 then (if isLeap y then 29 else 28)
  else if m == 4 || m == 6 || m == 9 || m == 11 then 30
  else 31

/-- The two-digit month alternative of strptime's `%m` regex
(`1[0-2]|0[1-9]`): two digits with value 1..12. -/
def month2 (c1 c2 : Char) : Option Nat :=
  if isDig c1 && isDig c2 then
    let v := 10 * dv c1 + dv c2
    if 1 ≤ v && v ≤ 12 then some v else none
  else none

/-- The one-digit month alternative of `%m` (`[1-9]`). -/
def month1 (c : Char) : Option Nat :=
  if isDig c && 1 ≤ dv c then some (dv c) else none

/-- The two-digit day alternative of strptime's `%d` regex
(`3[01]|[12]\d|0[1-9]`): two digits with value 1..31. -/
def day2 (c1 c2 : Char) : Option Nat :=
  if isDig c1 && isDig c2 then
    let v := 10 * dv c1 + dv c2
    if 1 ≤ v && v ≤ 31 then some v else none
  else none

/-- The one-digit day alternative of `%d` (`[1-9]`). -/
def day1 (c : Char) : Option Nat :=
  if isDig c && 1 ≤ dv c then some (dv c) else none

/-- The 4-digit year of strptime's `%Y` regex (`\d\d\d\d`). -/
def year4 (a b c d : Char) : Option Nat :=
  if isDig a && isDig b && isDig c && isDig d then
    some (1000 * dv a + 100 * dv b + 10 * dv c + dv d)
  else none

/-- Combine the matched components, applying `datetime`'s range checks
(`MINYEAR = 1`; day must exist in the month). -/
def mkYMD (oy om od : Option Nat) : Option (Nat × Nat × Nat) :=
  match oy, om, od with
  | some y, some m, some d =>
    if 1 ≤ y && d ≤ daysInMonth y m then some (y, m, d) else none
  | _, _, _ => none

/-- `datetime.strptime(s, "%Y-%m-%d")`: a full match of the compiled
regex `(\d\d\d\d)-(1[0-2]|0[1-9]|[1-9])-(3[01]|[12]\d|0[1-9]|[1-9])`
followed by the constructor's calendar validation.  Since `-` is not a
digit, the regex match is deterministic and depends only on the length
of the month and day runs, giving four possible shapes. -/
def strptimeYMD (s : String) : Option (Nat × Nat × Nat) :=
  match s.data with
  | [a, b, c, d, h1, m1, m2, h2, d1, d2] =>
    if h1 == '-' && h2 == '-' then mkYMD (year4 a b c d) (month2 m1 m2) (day2 d1 d2)
    else none
  | [a, b, c, d, h1, x, y, z, w] =>
    if h1 == '-' && y == '-' then mkYMD (year4 a b c d) (month1 x) (day2 z w)
    else if h1 == '-' && z == '-' then mkYMD (year4 a b c d) (month2 x y) (day1 w)
    else none
  | [a, b, c, d, h1, x, h2, y] =>
    if h1 == '-' && h2 == '-' then mkYMD (year4 a b c d) (month1 x) (day1 y)
    else none
  | _ => none

/-- HTTPException raised by a handler. -/
structure HTTPError where
  status : Nat
  detail : String
  deriving DecidableEq, Repr

instance {ε α : Type} [DecidableEq ε] [DecidableEq α] : DecidableEq (Except ε α) :=
  fun x y =>
    match x, y with
    | .ok a, .ok b =>
      match decEq a b with
      | isTrue h => isTrue (h ▸ rfl)
      | isFalse h => isFalse (fun hc => h (Except.ok.inj hc))
    | .error a, .error b =>
      match decEq a b with
      | isTrue h => isTrue (h ▸ rfl)
      | isFalse h => isFalse (fun hc => h (Except.error.inj hc))
    | .ok _, .error _ => isFalse (fun hc => Except.noConfusion hc)
    | .error _, .ok _ => isFalse (fun hc => Except.noConfusion hc)

/-- `normalize_date` (main.py:32-36): parse with strptime and re-render
with strftime; any parse failure becomes HTTP 400. -/
def normalize_date (date_str : String) : Except HTTPError String :=
  match strptimeYMD date_str with
  | some (y, m, d) => .ok (formatDate y m d)
  | none => .error ⟨400, "Invalid date format. Use YYYY-MM-DD"⟩

/-- The `status` literal of `AttendanceCreate` (pydantic
`Literal['present','absent','late']`); request parsing rejects anything
else with 422 before the handler runs. -/
inductive Status where
  | present | absent | late
  deriving DecidableEq, Repr

/-- The string an accepted status literal denotes. -/
def Status.toStr : Status → String
  | .present => "present"
  | .absent => "absent"
  | .late => "late"

/-- `Optional[str]` field as a stored value (`None` ↦ BSON null). -/
def optVal : Option String → Value
  | some s => vStr s
  | none => vNull

/-- Request body of `POST /drivers` (`DriverCreate`, main.py:40-43). -/
structure DriverCreate where
  name : String
  phone : Option String := none
  license_no : Option String := none
  deriving DecidableEq, Repr

/-- Request body of `POST /attendance` (`AttendanceCreate`, main.py:46-50). -/
structure AttendanceCreate where
  driver_id : String
  date : String
  status : Status := .present
  notes : Option String := none
  deriving DecidableEq, Repr

/-- The two persisted collections, each in natural (insertion) order. -/
structure DB where
  driver : List Doc
  attendance : List Doc
  deriving DecidableEq, Repr

/-- Mongo equality-match: the document matches when every key of the
filter document is present with an equal value. -/
def matchesFilter (doc : Doc) (f : Doc) : Bool :=
  f.all (fun p => getField doc p.1 == some p.2)

/-- `find_one(filter)`: first matching document in natural order. -/
def find_one (coll : List Doc) (f : Doc) : Option Doc :=
  coll.find? (fun doc => matchesFilter doc f)

/-- Modelled from the spec: `get_documents` of the absent `database.py` —
"fetch records from a named collection optionally filtered by an
equality-match document" (spec §2); an empty filter matches everything. -/
def get_documents (coll : List Doc) (f : Doc) : List Doc :=
  coll.filter (fun doc => matchesFilter doc f)

/-- Modelled from the spec: `create_document` of the absent `database.py` —
"insert a record into a named collection and return its generated
identifier" (spec §2).  The store generates a fresh ObjectId (passed in
here as `fresh`), stores it first in the new document, appends the
document in natural order, and the helper returns the id's hex string. -/
def create_document (coll : List Doc) (data : Doc) (fresh : String) :
    List Doc × String :=
  (coll ++ [("_id", vOid fresh) :: data], fresh)

/-- `{"$set": fields}` applied to one document: each field overwritten in
place or appended. -/
def applySet (doc : Doc) (fields : Doc) : Doc :=
  fields.foldl (fun d p => dictSet d p.1 p.2) doc

/-- `update_one(filter, {"$set": fields})`: update the first matching
document in natural order, if any. -/
def update_one (coll : List Doc) (f : Doc) (fields : Doc) : List Doc :=
  match coll with
  | [] => []
  | doc :: rest =>
    if matchesFilter doc f then applySet doc fields :: rest
    else doc :: update_one rest f fields

/-- `existing["_id"]` — every document stored by MongoDB carries `_id`,
so the default branch is unreachable for store-produced documents. -/
def idValue (doc : Doc) : Value := (getField doc "_id").getD vNull

/-- `create_driver` (main.py:85-90): persist the three request fields,
re-fetch by the generated id, serialize.  `fresh` is the store-generated
ObjectId hex string. -/
def create_driver (payload : DriverCreate) (db : DB) (fresh : String) :
    DB × Option Doc :=
  let driver : Doc := [("name", vStr payload.name), ("phone", optVal payload.phone),
                       ("license_no", optVal payload.license_no)]
  let res := create_document db.driver driver fresh
  let doc := find_one res.1 [("_id", vOid (oidCanon res.2))]
  ({ db with driver := res.1 }, doc.map serialize_id)

/-- `list_drivers` (main.py:93-96). -/
def list_drivers (db : DB) : List Doc :=
  (get_documents db.driver []).map serialize_id

/-- The update/insert payload built by `mark_attendance` (main.py:116-121). -/
def markData (p : AttendanceCreate) (date_norm : String) : Doc :=
  [("driver_id", vStr p.driver_id), ("date", vStr date_norm),
   ("status", vStr p.status.toStr), ("notes", optVal p.notes)]

/-- `mark_attendance` (main.py:100-128).  `now` is `datetime.utcnow()`;
`fresh` the ObjectId the store would generate on insert.  A raised
HTTPException leaves the database untouched. -/
def mark_attendance (p : AttendanceCreate) (db : DB) (now : Nat) (fresh : String) :
    DB × Except HTTPError (Option Doc) :=
  if isValidObjectId p.driver_id then
    match find_one db.driver [("_id", vOid (oidCanon p.driver_id))] with
    | none => (db, .error ⟨404, "Driver not found"⟩)
    | some _driver =>
      match normalize_date p.date with
      | .error e => (db, .error e)
      | .ok date_norm =>
        let data := markData p date_norm
        match find_one db.attendance
            [("driver_id", vStr p.driver_id), ("date", vStr date_norm)] with
        | some existing =>
          let att := update_one db.attendance [("_id", idValue existing)]
                       (data ++ [("updated_at", vTime now)])
          ({ db with attendance := att },
           .ok ((find_one att [("_id", idValue existing)]).map serialize_id))
        | none =>
          let res := create_document db.attendance data fresh
          ({ db with attendance := res.1 },
           .ok ((find_one res.1 [("_id", vOid (oidCanon res.2))]).map serialize_id))
  else (db, .error ⟨400, "Invalid driver_id"⟩)

/-- Truthiness of an optional query string (`if date:` in Python): absent
and empty both count as false. -/
def truthy : Option String → Bool
  | some s => !(s == "")
  | none => false

/-- The `date` clause of `get_attendance`'s filter (main.py:134-135). -/
def dateFilter (date : Option String) : Except HTTPError Doc :=
  match date with
  | some s =>
    if !(s == "") then
      match normalize_date s with
      | .ok n => .ok [("date", vStr n)]
      | .error e => .error e
    else .ok []
  | none => .ok []

/-- The `driver_id` clause of `get_attendance`'s filter (main.py:136-141). -/
def driverFilter (driver_id : Option String) : Except HTTPError Doc :=
  match driver_id with
  | some s =>
    if !(s == "") then
      if isValidObjectId s then .ok [("driver_id", vStr s)]
      else .error ⟨400, "Invalid driver_id"⟩
    else .ok []
  | none => .ok []

/-- `get_attendance` (main.py:131-143): build the equality filter from
the truthy parameters (date clause first), fetch, serialize. -/
def get_attendance (date driver_id : Option String) (db : DB) :
    Except HTTPError (List Doc) :=
  match dateFilter date with
  | .error e => .error e
  | .ok f1 =>
    match driverFilter driver_id with
    | .error e => .error e
    | .ok f2 => .ok ((get_documents db.attendance (f1 ++ f2)).map serialize_id)

/-- Response of `GET /attendance/summary`. -/
structure Summary where
  driver_id : String
  total_days : Nat
  present : Nat
  absent : Nat
  late : Nat
  deriving DecidableEq, Repr

/-- `$status` as a `$group` key: a missing field groups under null. -/
def statusOf (doc : Doc) : Value := (getField doc "status").getD vNull

/-- `counts.get(v, 0)` over the association list of group counts. -/
def lookupCount (l : List (Value × Nat)) (v : Value) : Nat :=
  ((l.find? (fun p => p.1 == v)).map (·.2)).getD 0

/-- `attendance_summary` (main.py:146-169): `$match` on the raw
`driver_id` string, `$group` by `$status` with `$sum: 1`, then read the
three enumerated counts off the group table, totalling all groups. -/
def attendance_summary (driver_id : String) (db : DB) :
    Except HTTPError Summary :=
  if isValidObjectId driver_id then
    let matched := db.attendance.filter
      (fun doc => getField doc "driver_id" == some (vStr driver_id))
    let statuses := (matched.map statusOf).dedup
    let counts := statuses.map (fun v => (v, (matched.map statusOf).count v))
    .ok { driver_id := driver_id,
          total_days := (counts.map (·.2)).sum,
          present := lookupCount counts (vStr "present"),
          absent := lookupCount counts (vStr "absent"),
          late := lookupCount counts (vStr "late") }
  else .error ⟨400, "Invalid driver_id"⟩

/-- A collaborator call that either returns or raises. -/
inductive StoreResult (α : Type) where
  | ok : α → StoreResult α
  | exn : String → StoreResult α
  deriving DecidableEq, Repr

/-- The environment `test_database` probes: whether `db` is not `None`,
whether `DATABASE_URL` is set, and the outcomes of the two store calls
(`db.name` attribute access and `list_collection_names()`), each of
which may raise. -/
structure StoreEnv where
  dbAvailable : Bool
  hasUrl : Bool
  dbName : StoreResult String
  listCollections : StoreResult (List String)
  deriving DecidableEq, Repr

/-- Response dict of `GET /test`. -/
structure TestResponse where
  backend : String
  database : String
  database_url : Option String
  database_name : Option String
  connection_status : String
  collections : List String
  deriving DecidableEq, Repr

/-- The initial response dict of `test_database` (main.py:60-67). -/
def testBase : TestResponse :=
  { backend := "✅ Running", database := "❌ Not Available",
    database_url := none, database_name := none,
    connection_status := "Not Connected", collections := [] }

/-- `test_database` (main.py:58-81): mutate the response dict step by
step; the inner `except` converts a `list_collection_names` failure and
the outer `except` converts any other failure (here: `db.name`) into a
status string truncated to 50 characters; fields already set before the
failure keep their values. -/
def test_database (env : StoreEnv) : TestResponse :=
  if env.dbAvailable then
    let r1 := { testBase with
                database := "✅ Available",
                database_url := some (if env.hasUrl then "✅ Set" else "❌ Not Set") }
    match env.dbName with
    | .exn m => { r1 with database := "❌ Error: " ++ m.take 50 }
    | .ok nm =>
      let r2 := { r1 with database_name := some nm, connection_status := "Connected" }
      match env.listCollections with
      | .exn m => { r2 with database := "⚠️ Connected but Error: " ++ m.take 50 }
      | .ok ls => { r2 with collections := ls.take 10,
                            database := "✅ Connected & Working" }
  else testBase

/-! ### Generic facts about documents, filters and the store operations -/

theorem matchesFilter_nil (doc : Doc) : matchesFilter doc [] = true := rfl

theorem matchesFilter_single (doc : Doc) (k : String) (v : Value) :
    matchesFilter doc [(k, v)] = (getField doc k == some v) := by
  simp [matchesFilter]

theorem matchesFilter_two (doc : Doc) (k1 k2 : String) (v1 v2 : Value) :
    matchesFilter doc [(k1, v1), (k2, v2)] =
      ((getField doc k1 == some v1) && (getField doc k2 == some v2)) := by
  simp [matchesFilter]

theorem getField_cons_pos {a : String × Value} {t : Doc} {k : String}
    (h : (a.1 == k) = true) : getField (a :: t) k = some a.2 := by
  unfold getField
  rw [List.find?_cons_of_pos (p := fun q => q.1 == k) t h]
  rfl

theorem getField_cons_neg {a : String × Value} {t : Doc} {k : String}
    (h : (a.1 == k) = false) : getField (a :: t) k = getField t k := by
  unfold getField
  rw [List.find?_cons_of_neg (p := fun q => q.1 == k) t (by simp [h])]

theorem find?_append_of_none {α : Type} {l1 l2 : List α} {p : α → Bool}
    (h : l1.find? p = none) : (l1 ++ l2).find? p = l2.find? p := by
  simp [List.find?_append, h]

theorem find?_all_false {α : Type} {l : List α} {p : α → Bool}
    (h : ∀ x ∈ l, p x = false) : l.find? p = none :=
  List.find?_eq_none.mpr (fun x hx => by simp [h x hx])

theorem getField_append_of_none {l1 l2 : Doc} {k : String}
    (h : getField l1 k = none) : getField (l1 ++ l2) k = getField l2 k := by
  have h' : l1.find? (fun p => p.1 == k) = none := by
    simpa [getField] using h
  simp [getField, List.find?_append, h']

theorem getField_eq_none_iff {d : Doc} {k : String} :
    getField d k = none ↔ ∀ p ∈ d, (p.1 == k) = false := by
  simp only [getField, Option.map_eq_none', List.find?_eq_none]
  constructor
  · intro h p hp
    simpa using h p hp
  · intro h p hp
    simp [h p hp]

theorem update_one_append_of_none {l1 l2 : List Doc} {f s : Doc}
    (h : ∀ x ∈ l1, matchesFilter x f = false) :
    update_one (l1 ++ l2) f s = l1 ++ update_one l2 f s := by
  induction l1 with
  | nil => rfl
  | cons a t ih =>
    have ha := h a (List.mem_cons_self a t)
    simp only [List.cons_append, update_one, ha, Bool.false_eq_true, if_false,
      List.append_eq]
    rw [ih (fun x hx => h x (List.mem_cons_of_mem _ hx))]

theorem update_one_cons_pos {a : Doc} {t : List Doc} {f s : Doc}
    (h : matchesFilter a f = true) :
    update_one (a :: t) f s = applySet a s :: t := by
  simp [update_one, h]

theorem exists_decomp_of_countP_one {α : Type} {l : List α} {p : α → Bool} {u : α}
    (hu : u ∈ l) (hpu : p u = true) (h1 : l.countP p = 1) :
    ∃ l1 l2, l = l1 ++ u :: l2 ∧ (∀ x ∈ l1, p x = false) ∧ (∀ x ∈ l2, p x = false) := by
  induction l with
  | nil => cases hu
  | cons a t ih =>
    rw [List.countP_cons] at h1
    by_cases hpa : p a = true
    · rw [if_pos hpa] at h1
      have ht0 : t.countP p = 0 := by omega
      have ht : ∀ x ∈ t, p x = false := by
        intro x hx
        have := List.countP_eq_zero.mp ht0 x hx
        simpa using this
      rcases List.mem_cons.mp hu with rfl | hut
      · exact ⟨[], t, rfl, by simp, ht⟩
      · exact absurd hpu (by simp [ht u hut])
    · have hpaf : p a = false := by simpa using hpa
      rw [if_neg hpa] at h1
      have ht1 : t.countP p = 1 := by omega
      rcases List.mem_cons.mp hu with rfl | hut
      · exact absurd hpu hpa
      · rcases ih hut ht1 with ⟨l1, l2, hdec, h1f, h2f⟩
        refine ⟨a :: l1, l2, by rw [hdec]; rfl, ?_, h2f⟩
        intro x hx
        rcases List.mem_cons.mp hx with rfl | hx1
        · exact hpaf
        · exact h1f x hx1

theorem getField_append_of_some {l1 l2 : Doc} {k : String} {w : Value}
    (h : getField l1 k = some w) : getField (l1 ++ l2) k = some w := by
  obtain ⟨pr, hpr, hw⟩ : ∃ pr, l1.find? (fun q => q.1 == k) = some pr ∧ pr.2 = w := by
    simpa [getField, Option.map_eq_some'] using h
  unfold getField
  rw [List.find?_append, hpr]
  simp [hw]

theorem getField_map_dictSet {doc : Doc} {k : String} {v : Value}
    (h : (doc.find? (fun q => q.1 == k)).isSome = true) :
    getField (doc.map (fun q => if q.1 == k then (k, v) else q)) k = some v := by
  induction doc with
  | nil => simp at h
  | cons a t ih =>
    rw [List.map_cons]
    by_cases hak : (a.1 == k) = true
    · rw [if_pos hak]
      exact getField_cons_pos (by simp)
    · have hakf : (a.1 == k) = false := by simpa using hak
      rw [if_neg (by simp [hakf])]
      rw [getField_cons_neg hakf]
      apply ih
      rwa [List.find?_cons_of_neg (p := fun q => q.1 == k) t (by simp [hakf])] at h

theorem getField_dictSet_self (doc : Doc) (k : String) (v : Value) :
    getField (dictSet doc k v) k = some v := by
  unfold dictSet
  split
  · next h => exact getField_map_dictSet h
  · next h =>
    have hn : doc.find? (fun q => q.1 == k) = none :=
      Option.not_isSome_iff_eq_none.mp h
    rw [getField_append_of_none (by simp [getField, hn])]
    exact getField_cons_pos (by simp)

theorem getField_map_other {doc : Doc} {k kk : String} {v : Value}
    (hne : (k == kk) = false) :
    getField (doc.map (fun q => if q.1 == k then (k, v) else q)) kk = getField doc kk := by
  induction doc with
  | nil => rfl
  | cons a t ih =>
    rw [List.map_cons]
    by_cases hak : (a.1 == k) = true
    · rw [if_pos hak]
      have ha1 : a.1 = k := by simpa using hak
      have hakk : (a.1 == kk) = false := by rw [ha1]; exact hne
      rw [getField_cons_neg (a := (k, v)) hne, getField_cons_neg hakk]
      exact ih
    · have hakf : (a.1 == k) = false := by simpa using hak
      rw [if_neg (by simp [hakf])]
      by_cases hkk : (a.1 == kk) = true
      · rw [getField_cons_pos hkk, getField_cons_pos hkk]
      · have hkkf : (a.1 == kk) = false := by simpa using hkk
        rw [getField_cons_neg hkkf, getField_cons_neg hkkf]
        exact ih

theorem getField_dictSet_other (doc : Doc) (k kk : String) (v : Value)
    (hne : (k == kk) = false) :
    getField (dictSet doc k v) kk = getField doc kk := by
  unfold dictSet
  split
  · exact getField_map_other hne
  · cases hfk : getField doc kk with
    | none =>
      rw [getField_append_of_none hfk, getField_cons_neg (a := (k, v)) hne]
      rfl
    | some w => exact getField_append_of_some hfk

theorem getField_filter_ne {doc : Doc} {k kk : String}
    (hne : (kk == k) = false) :
    getField (doc.filter (fun q => !(q.1 == kk))) k = getField doc k := by
  induction doc with
  | nil => rfl
  | cons a t ih =>
    by_cases hak : (a.1 == kk) = true
    · have ha1 : a.1 = kk := by simpa using hak
      have hk : (a.1 == k) = false := by rw [ha1]; exact hne
      rw [List.filter_cons_of_neg (by simp [hak]), getField_cons_neg hk]
      exact ih
    · have hakf : (a.1 == kk) = false := by simpa using hak
      rw [List.filter_cons_of_pos (by simp [hakf])]
      by_cases hk : (a.1 == k) = true
      · rw [getField_cons_pos hk, getField_cons_pos hk]
      · have hkf : (a.1 == k) = false := by simpa using hk
        rw [getField_cons_neg hkf, getField_cons_neg hkf]
        exact ih

theorem getField_filter_self {doc : Doc} {kk : String} :
    getField (doc.filter (fun q => !(q.1 == kk))) kk = none := by
  apply getField_eq_none_iff.mpr
  intro p hp
  have := (List.mem_filter.mp hp).2
  simpa using this

theorem serialize_id_eq {doc : Doc} {v : Value}
    (hid : getField doc "_id" = some v) (hno : getField doc "id" = none) :
    serialize_id doc =
      doc.filter (fun q => !(q.1 == "_id")) ++ [("id", vStr (valueToStr v))] := by
  cases doc with
  | nil => simp [getField] at hid
  | cons a t =>
    simp only [serialize_id, List.isEmpty_cons, Bool.false_eq_true, if_false, hid]
    have hfno : getField ((a :: t).filter (fun q => !(q.1 == "_id"))) "id" = none := by
      rw [getField_filter_ne (by decide)]
      exact hno
    have hfind : ((a :: t).filter (fun q => !(q.1 == "_id"))).find?
        (fun q => q.1 == "id") = none := by
      simpa [getField, Option.map_eq_none'] using hfno
    unfold dictSet
    rw [if_neg (by simp [hfind])]

/-! ### Claim theorems -/

/-- C7: every object a successful handler returns is produced by
`serialize_id`, which removes the store's internal `_id` field, appends a
public string `id` field holding the identifier's string form, and leaves
every other field of the stored record unchanged. -/
theorem C7_serialize_public_id (doc : Doc) (v : Value)
    (hid : getField doc "_id" = some v) (hno : getField doc "id" = none) :
    serialize_id doc =
      doc.filter (fun q => !(q.1 == "_id")) ++ [("id", vStr (valueToStr v))] ∧
    getField (serialize_id doc) "_id" = none ∧
    getField (serialize_id doc) "id" = some (vStr (valueToStr v)) ∧
    ∀ k, (k == "_id") = false → (k == "id") = false →
      getField (serialize_id doc) k = getField doc k := by
  have heq := serialize_id_eq hid hno
  have hfno : getField (doc.filter (fun q => !(q.1 == "_id"))) "id" = none := by
    rw [getField_filter_ne (by decide)]
    exact hno
  refine ⟨heq, ?_, ?_, ?_⟩
  · rw [heq, getField_append_of_none getField_filter_self]
    rfl
  · rw [heq, getField_append_of_none hfno]
    rfl
  · intro k h1 h2
    have hsym : ("_id" == k) = false := by
      have : k ≠ "_id" := by simpa using h1
      simp [this.symm]
    have hfk : getField (doc.filter (fun q => !(q.1 == "_id"))) k = getField doc k :=
      getField_filter_ne hsym
    rw [heq]
    cases hval : getField doc k with
    | some w =>
      rw [getField_append_of_some (hfk.trans hval)]
    | none =>
      rw [getField_append_of_none (hfk.trans hval),
        getField_cons_neg (by simpa using (show ("id" == k) = false by
          have : k ≠ "id" := by simpa using h2
          simp [this.symm]))]
      rfl

/-- Concrete record used to exercise C7. -/
def docEx7 : Doc := [("_id", vOid "aabbccddeeff001122334455"), ("name", vStr "Alice")]

theorem C7_serialize_public_id_witness :
    getField docEx7 "_id" = some (vOid "aabbccddeeff001122334455") ∧
    getField docEx7 "id" = none ∧
    getField (serialize_id docEx7) "id" = some (vStr "aabbccddeeff001122334455") ∧
    getField (serialize_id docEx7) "_id" = none ∧
    getField (serialize_id docEx7) "name" = getField docEx7 "name" := by
  have h := C7_serialize_public_id docEx7 (vOid "aabbccddeeff001122334455")
    (by decide) (by decide)
  exact ⟨by decide, by decide, h.2.2.1, h.2.1, h.2.2.2 "name" (by decide) (by decide)⟩

/-- C9: an empty-string `date` or `driver_id` query parameter on
`GET /attendance` is treated exactly like an absent parameter: it is not
validated (no 400) and contributes no filter clause, because the handler
tests truthiness. -/
theorem C9_empty_query_params_ignored (db : DB) (ds dri : Option String) :
    get_attendance (some "") dri db = get_attendance none dri db ∧
    get_attendance ds (some "") db = get_attendance ds none db ∧
    get_attendance (some "") (some "") db = .ok (db.attendance.map serialize_id) := by
  refine ⟨?_, ?_, ?_⟩
  · rfl
  · cases h : dateFilter ds <;> simp [get_attendance, h, driverFilter]
  · show Except.ok ((get_documents db.attendance ([] ++ [])).map serialize_id) = _
    simp [get_documents, matchesFilter]

/-- C8: the `GET /test` diagnostic endpoint is total over every state of
the store collaborator — each collaborator failure is converted into a
descriptive status string in the response (truncated to 50 characters),
fields set before the failure keep their values, and the reported
collections list holds at most 10 names. -/
theorem C8_test_endpoint_total (env : StoreEnv) (u : Bool) (m nm : String)
    (ls : List String) :
    (test_database env).collections.length ≤ 10 ∧
    (test_database env).backend = "✅ Running" ∧
    test_database ⟨false, u, .ok nm, .ok ls⟩ = testBase ∧
    test_database ⟨true, u, .exn m, .ok ls⟩ =
      { testBase with database := "❌ Error: " ++ m.take 50,
                      database_url := some (if u then "✅ Set" else "❌ Not Set") } ∧
    test_database ⟨true, u, .ok nm, .exn m⟩ =
      { testBase with database := "⚠️ Connected but Error: " ++ m.take 50,
                      database_url := some (if u then "✅ Set" else "❌ Not Set"),
                      database_name := some nm, connection_status := "Connected" } ∧
    test_database ⟨true, u, .ok nm, .ok ls⟩ =
      { testBase with database := "✅ Connected & Working",
                      database_url := some (if u then "✅ Set" else "❌ Not Set"),
                      database_name := some nm, connection_status := "Connected",
                      collections := ls.take 10 } := by
  obtain ⟨av, hu, dn, lc⟩ := env
  refine ⟨?_, ?_, rfl, rfl, rfl, rfl⟩
  · cases av <;> cases dn <;> cases lc <;>
      simp [test_database, testBase, List.length_take]
  · cases av <;> cases dn <;> cases lc <;> rfl

/-- C10: `POST /drivers` persists exactly the three request fields plus
the store-generated `_id`, and returns exactly those three fields plus the
public `id`; in particular no `is_active` field is stored or returned even
though the `Driver` schema in `schemas.py` declares it with default
`true`. -/
theorem C10_create_driver_fields (p : DriverCreate) (db : DB) (fresh : String)
    (hcanon : oidCanon fresh = fresh)
    (hfr : ∀ doc ∈ db.driver, matchesFilter doc [("_id", vOid fresh)] = false) :
    create_driver p db fresh =
      ({ db with driver := db.driver ++
          [[("_id", vOid fresh), ("name", vStr p.name), ("phone", optVal p.phone),
            ("license_no", optVal p.license_no)]] },
       some [("name", vStr p.name), ("phone", optVal p.phone),
             ("license_no", optVal p.license_no), ("id", vStr fresh)]) ∧
    ([("_id", vOid fresh), ("name", vStr p.name), ("phone", optVal p.phone),
      ("license_no", optVal p.license_no)].map Prod.fst =
      ["_id", "name", "phone", "license_no"]) ∧
    ([("name", vStr p.name), ("phone", optVal p.phone),
      ("license_no", optVal p.license_no), ("id", vStr fresh)].map Prod.fst =
      ["name", "phone", "license_no", "id"]) ∧
    "is_active" ∉ ["_id", "name", "phone", "license_no"] ∧
    "is_active" ∉ ["name", "phone", "license_no", "id"] := by
  refine ⟨?_, rfl, rfl, by decide, by decide⟩
  unfold create_driver create_document
  simp only []
  rw [hcanon]
  have hfind : find_one (db.driver ++
      [[("_id", vOid fresh), ("name", vStr p.name), ("phone", optVal p.phone),
        ("license_no", optVal p.license_no)]]) [("_id", vOid fresh)] =
      some [("_id", vOid fresh), ("name", vStr p.name), ("phone", optVal p.phone),
            ("license_no", optVal p.license_no)] := by
    unfold find_one
    rw [find?_append_of_none (find?_all_false hfr)]
    apply List.find?_cons_of_pos
    rw [matchesFilter_single]
    simp [getField, List.find?]
  rw [hfind]
  have hid : getField [("_id", vOid fresh), ("name", vStr p.name),
      ("phone", optVal p.phone), ("license_no", optVal p.license_no)] "_id" =
      some (vOid fresh) := by
    simp [getField, List.find?]
  have hno : getField [("_id", vOid fresh), ("name", vStr p.name),
      ("phone", optVal p.phone), ("license_no", optVal p.license_no)] "id" =
      none := by
    simp [getField, List.find?]
  rw [Option.map_some', serialize_id_eq hid hno]
  rfl

/-- Concrete state used to exercise C10. -/
def dbEx10 : DB := { driver := [], attendance := [] }

theorem C10_create_driver_fields_witness :
    oidCanon "aabbccddeeff001122334455" = "aabbccddeeff001122334455" ∧
    create_driver ⟨"Alice", some "123", none⟩ dbEx10 "aabbccddeeff001122334455" =
      ({ dbEx10 with driver :=
          [[("_id", vOid "aabbccddeeff001122334455"), ("name", vStr "Alice"),
            ("phone", vStr "123"), ("license_no", vNull)]] },
       some [("name", vStr "Alice"), ("phone", vStr "123"),
             ("license_no", vNull), ("id", vStr "aabbccddeeff001122334455")]) := by
  have h := C10_create_driver_fields ⟨"Alice", some "123", none⟩ dbEx10
    "aabbccddeeff001122334455" (by decide) (by intro doc hdoc; cases hdoc)
  exact ⟨by decide, h.1⟩

/-- C5: `GET /attendance` filters by equality on exactly the supplied
(non-empty) parameters: no parameters returns every stored attendance
record, `date` alone returns exactly the records whose stored `date`
equals the normalized supplied date, `driver_id` alone filters on the raw
string, and both parameters filter on both fields. -/
theorem C5_get_attendance_equality_filter (db : DB) (ds di n : String)
    (hds : ds ≠ "") (hdi : di ≠ "")
    (hn : normalize_date ds = .ok n) (hv : isValidObjectId di = true) :
    get_attendance none none db = .ok (db.attendance.map serialize_id) ∧
    get_attendance (some ds) none db =
      .ok ((db.attendance.filter
        (fun doc => getField doc "date" == some (vStr n))).map serialize_id) ∧
    get_attendance none (some di) db =
      .ok ((db.attendance.filter
        (fun doc => getField doc "driver_id" == some (vStr di))).map serialize_id) ∧
    get_attendance (some ds) (some di) db =
      .ok ((db.attendance.filter
        (fun doc => getField doc "date" == some (vStr n) &&
                    getField doc "driver_id" == some (vStr di))).map serialize_id) := by
  have hdsb : (ds == "") = false := by simpa using hds
  have hdib : (di == "") = false := by simpa using hdi
  have hdf : dateFilter (some ds) = .ok [("date", vStr n)] := by
    simp [dateFilter, hdsb, hn]
  have hrf : driverFilter (some di) = .ok [("driver_id", vStr di)] := by
    simp [driverFilter, hdib, hv]
  refine ⟨?_, ?_, ?_, ?_⟩
  · show Except.ok ((get_documents db.attendance ([] ++ [])).map serialize_id) = _
    simp [get_documents, matchesFilter]
  · rw [get_attendance, hdf]
    show Except.ok ((get_documents db.attendance
      ([("date", vStr n)] ++ [])).map serialize_id) = _
    simp [get_documents, matchesFilter_single]
  · rw [get_attendance, hrf]
    show Except.ok ((get_documents db.attendance
      ([] ++ [("driver_id", vStr di)])).map serialize_id) = _
    simp [get_documents, matchesFilter_single]
  · rw [get_attendance, hdf, hrf]
    show Except.ok ((get_documents db.attendance
      ([("date", vStr n)] ++ [("driver_id", vStr di)])).map serialize_id) = _
    simp [get_documents, matchesFilter_two]

/-- Concrete state used to exercise C5. -/
def dbEx5 : DB :=
  { driver := [],
    attendance :=
      [[("_id", vOid "a00000000000000000000001"),
        ("driver_id", vStr "b00000000000000000000001"),
        ("date", vStr "2024-01-05"), ("status", vStr "present"), ("notes", vNull)],
       [("_id", vOid "a00000000000000000000002"),
        ("driver_id", vStr "b00000000000000000000002"),
        ("date", vStr "2024-01-06"), ("status", vStr "late"), ("notes", vNull)]] }

theorem C5_get_attendance_equality_filter_witness :
    "2024-01-05" ≠ "" ∧ normalize_date "2024-01-05" = .ok "2024-01-05" ∧
    isValidObjectId "b00000000000000000000002" = true ∧
    get_attendance none none dbEx5 = .ok (dbEx5.attendance.map serialize_id) ∧
    get_attendance (some "2024-01-05") none dbEx5 =
      .ok ((dbEx5.attendance.filter
        (fun doc => getField doc "date" == some (vStr "2024-01-05"))).map serialize_id) := by
  have h := C5_get_attendance_equality_filter dbEx5 "2024-01-05"
    "b00000000000000000000002" "2024-01-05" (by decide) (by decide)
    (by decide) (by decide)
  exact ⟨by decide, by decide, by decide, h.1, h.2.1⟩

theorem normalize_date_error {s : String} {e : HTTPError}
    (h : normalize_date s = .error e) :
    e = ⟨400, "Invalid date format. Use YYYY-MM-DD"⟩ := by
  unfold normalize_date at h
  cases hp : strptimeYMD s with
  | some t =>
    rw [hp] at h
    simp at h
  | none =>
    rw [hp] at h
    exact (Except.error.inj h).symm

/-- C2: `POST /attendance` rejects an unparseable `driver_id` with 400;
a parseable but absent driver with 404 regardless of the date's
validity (so the date is validated only after the driver-existence
check); and a bad date with 400 only once the driver exists.  In every
failure case the returned state is the input state: nothing was
written to either collection. -/
theorem C2_mark_attendance_error_order (p : AttendanceCreate) (db : DB)
    (now : Nat) (fresh : String) (e : HTTPError) :
    (isValidObjectId p.driver_id = false →
       mark_attendance p db now fresh = (db, .error ⟨400, "Invalid driver_id"⟩)) ∧
    (isValidObjectId p.driver_id = true →
       find_one db.driver [("_id", vOid (oidCanon p.driver_id))] = none →
       mark_attendance p db now fresh = (db, .error ⟨404, "Driver not found"⟩)) ∧
    (isValidObjectId p.driver_id = true →
       (find_one db.driver [("_id", vOid (oidCanon p.driver_id))]).isSome = true →
       normalize_date p.date = .error e →
       mark_attendance p db now fresh = (db, .error e) ∧ e.status = 400) := by
  refine ⟨?_, ?_, ?_⟩
  · intro hv
    simp [mark_attendance, hv]
  · intro hv hnone
    simp [mark_attendance, hv, hnone]
  · intro hv hsome hn
    obtain ⟨w, hw⟩ := Option.isSome_iff_exists.mp hsome
    refine ⟨by simp [mark_attendance, hv, hw, hn], ?_⟩
    rw [normalize_date_error hn]

/-- Concrete state used to exercise C2: one driver, no attendance. -/
def dbEx2 : DB :=
  { driver := [[("_id", vOid "b00000000000000000000001"), ("name", vStr "A"),
                ("phone", vNull), ("license_no", vNull)]],
    attendance := [] }

theorem C2_mark_attendance_error_order_witness :
    mark_attendance ⟨"abc", "2024-01-05", .present, none⟩ dbEx2 0
        "c00000000000000000000001" =
      (dbEx2, .error ⟨400, "Invalid driver_id"⟩) ∧
    mark_attendance ⟨"d00000000000000000000001", "2024-01-05", .present, none⟩
        dbEx2 0 "c00000000000000000000001" =
      (dbEx2, .error ⟨404, "Driver not found"⟩) ∧
    mark_attendance ⟨"b00000000000000000000001", "2024/01/01", .present, none⟩
        dbEx2 0 "c00000000000000000000001" =
      (dbEx2, .error ⟨400, "Invalid date format. Use YYYY-MM-DD"⟩) := by
  refine ⟨?_, ?_, ?_⟩
  · exact (C2_mark_attendance_error_order ⟨"abc", "2024-01-05", .present, none⟩
      dbEx2 0 "c00000000000000000000001" ⟨400, "x"⟩).1 (by decide)
  · exact (C2_mark_attendance_error_order
      ⟨"d00000000000000000000001", "2024-01-05", .present, none⟩
      dbEx2 0 "c00000000000000000000001" ⟨400, "x"⟩).2.1 (by decide) (by decide)
  · exact ((C2_mark_attendance_error_order
      ⟨"b00000000000000000000001", "2024/01/01", .present, none⟩
      dbEx2 0 "c00000000000000000000001"
      ⟨400, "Invalid date format. Use YYYY-MM-DD"⟩).2.2 (by decide) (by decide)
      (by decide)).1

theorem lookupCount_map {ks : List Value} {f : Value → Nat} {w : Value} :
    lookupCount (ks.map fun v => (v, f v)) w = if w ∈ ks then f w else 0 := by
  induction ks with
  | nil => rfl
  | cons a t ih =>
    rw [List.map_cons]
    by_cases haw : (a == w) = true
    · have ha : a = w := by simpa using haw
      subst ha
      unfold lookupCount
      rw [List.find?_cons_of_pos (p := fun q : Value × Nat => q.1 == a)
        (List.map (fun v => (v, f v)) t) (by simp)]
      simp
    · have hne : a ≠ w := by simpa using haw
      simp only [lookupCount] at ih ⊢
      rw [List.find?_cons_of_neg (p := fun q : Value × Nat => q.1 == w)
        (List.map (fun v => (v, f v)) t) (by simpa using haw)]
      rw [ih]
      simp [List.mem_cons, Ne.symm hne]

theorem lookupCount_dedup_count (ms : List Value) (w : Value) :
    lookupCount (ms.dedup.map fun v => (v, ms.count v)) w = ms.count w := by
  rw [lookupCount_map]
  by_cases h : w ∈ ms.dedup
  · rw [if_pos h]
  · rw [if_neg h]
    have hw : w ∉ ms := fun hm => h (List.mem_dedup.mpr hm)
    exact (List.count_eq_zero.mpr hw).symm

theorem length_eq_three_counts {ms : List Value}
    (h : ∀ v ∈ ms, v = vStr "present" ∨ v = vStr "absent" ∨ v = vStr "late") :
    ms.length = ms.count (vStr "present") + ms.count (vStr "absent") +
      ms.count (vStr "late") := by
  induction ms with
  | nil => rfl
  | cons a t ih =>
    have ht := ih (fun v hv => h v (List.mem_cons_of_mem _ hv))
    rcases h a (List.mem_cons_self a t) with ha | ha | ha <;> subst ha
    · rw [List.length_cons, List.count_cons_self,
        List.count_cons_of_ne (by decide) t, List.count_cons_of_ne (by decide) t]
      omega
    · rw [List.length_cons, List.count_cons_self,
        List.count_cons_of_ne (by decide) t, List.count_cons_of_ne (by decide) t]
      omega
    · rw [List.length_cons, List.count_cons_self,
        List.count_cons_of_ne (by decide) t, List.count_cons_of_ne (by decide) t]
      omega

/-- C4: `GET /attendance/summary` reports, for a parseable `driver_id`,
the counts of that driver's attendance records per enumerated status
(0 when none), while `total_days` totals the records of every status
value present in storage — it equals the number of the driver's records,
and equals `present + absent + late` whenever only the three enumerated
statuses occur for that driver. -/
theorem C4_attendance_summary_counts (db : DB) (d : String)
    (hv : isValidObjectId d = true) :
    ∃ s, attendance_summary d db = .ok s ∧
      s.driver_id = d ∧
      s.present = ((db.attendance.filter
        (fun doc => getField doc "driver_id" == some (vStr d))).map statusOf).count
          (vStr "present") ∧
      s.absent = ((db.attendance.filter
        (fun doc => getField doc "driver_id" == some (vStr d))).map statusOf).count
          (vStr "absent") ∧
      s.late = ((db.attendance.filter
        (fun doc => getField doc "driver_id" == some (vStr d))).map statusOf).count
          (vStr "late") ∧
      s.total_days = (db.attendance.filter
        (fun doc => getField doc "driver_id" == some (vStr d))).length ∧
      ((∀ doc ∈ db.attendance.filter
          (fun doc => getField doc "driver_id" == some (vStr d)),
          statusOf doc = vStr "present" ∨ statusOf doc = vStr "absent" ∨
          statusOf doc = vStr "late") →
        s.total_days = s.present + s.absent + s.late) := by
  have hsum : attendance_summary d db = .ok
      { driver_id := d,
        total_days := ((((db.attendance.filter
          (fun doc => getField doc "driver_id" == some (vStr d))).map
            statusOf).dedup.map
          (fun v => (v, ((db.attendance.filter
            (fun doc => getField doc "driver_id" == some (vStr d))).map
              statusOf).count v))).map (·.2)).sum,
        present := lookupCount (((db.attendance.filter
          (fun doc => getField doc "driver_id" == some (vStr d))).map
            statusOf).dedup.map
          (fun v => (v, ((db.attendance.filter
            (fun doc => getField doc "driver_id" == some (vStr d))).map
              statusOf).count v))) (vStr "present"),
        absent := lookupCount (((db.attendance.filter
          (fun doc => getField doc "driver_id" == some (vStr d))).map
            statusOf).dedup.map
          (fun v => (v, ((db.attendance.filter
            (fun doc => getField doc "driver_id" == some (vStr d))).map
              statusOf).count v))) (vStr "absent"),
        late := lookupCount (((db.attendance.filter
          (fun doc => getField doc "driver_id" == some (vStr d))).map
            statusOf).dedup.map
          (fun v => (v, ((db.attendance.filter
            (fun doc => getField doc "driver_id" == some (vStr d))).map
              statusOf).count v))) (vStr "late") } := by
    unfold attendance_summary
    rw [if_pos hv]
  have htot : ((((db.attendance.filter
      (fun doc => getField doc "driver_id" == some (vStr d))).map
        statusOf).dedup.map
      (fun v => (v, ((db.attendance.filter
        (fun doc => getField doc "driver_id" == some (vStr d))).map
          statusOf).count v))).map (·.2)).sum =
      (db.attendance.filter
        (fun doc => getField doc "driver_id" == some (vStr d))).length := by
    rw [List.map_map]
    have hcomp : (((·.2) : Value × Nat → Nat) ∘
        (fun v => (v, ((db.attendance.filter
          (fun doc => getField doc "driver_id" == some (vStr d))).map
            statusOf).count v))) =
        fun v => ((db.attendance.filter
          (fun doc => getField doc "driver_id" == some (vStr d))).map
            statusOf).count v := rfl
    rw [hcomp, List.sum_map_count_dedup_eq_length, List.length_map]
  refine ⟨_, hsum, rfl, lookupCount_dedup_count _ _, lookupCount_dedup_count _ _,
    lookupCount_dedup_count _ _, htot, ?_⟩
  intro h
  show ((((db.attendance.filter
      (fun doc => getField doc "driver_id" == some (vStr d))).map
        statusOf).dedup.map
      (fun v => (v, ((db.attendance.filter
        (fun doc => getField doc "driver_id" == some (vStr d))).map
          statusOf).count v))).map (·.2)).sum = _
  rw [htot, lookupCount_dedup_count, lookupCount_dedup_count,
    lookupCount_dedup_count]
  have hms : ∀ v ∈ (db.attendance.filter
      (fun doc => getField doc "driver_id" == some (vStr d))).map statusOf,
      v = vStr "present" ∨ v = vStr "absent" ∨ v = vStr "late" := by
    intro v hvm
    obtain ⟨doc, hdoc, rfl⟩ := List.mem_map.mp hvm
    exact h doc hdoc
  have := length_eq_three_counts hms
  rw [List.length_map] at this
  exact this

/-- Concrete state used to exercise C4: two records for the driver, one
`present` and one `late`, plus one record of another driver. -/
def dbEx4 : DB :=
  { driver := [],
    attendance :=
      [[("_id", vOid "a00000000000000000000001"),
        ("driver_id", vStr "b00000000000000000000001"),
        ("date", vStr "2024-01-05"), ("status", vStr "present"), ("notes", vNull)],
       [("_id", vOid "a00000000000000000000002"),
        ("driver_id", vStr "b00000000000000000000001"),
        ("date", vStr "2024-01-06"), ("status", vStr "late"), ("notes", vNull)],
       [("_id", vOid "a00000000000000000000003"),
        ("driver_id", vStr "b00000000000000000000002"),
        ("date", vStr "2024-01-06"), ("status", vStr "absent"), ("notes", vNull)]] }

theorem C4_attendance_summary_counts_witness :
    isValidObjectId "b00000000000000000000001" = true ∧
    ∃ s, attendance_summary "b00000000000000000000001" dbEx4 = .ok s ∧
      s.driver_id = "b00000000000000000000001" ∧ s.total_days = 2 ∧
      s.present = 1 ∧ s.absent = 0 ∧ s.late = 1 ∧
      s.total_days = s.present + s.absent + s.late := by
  obtain ⟨s, hs, hd, hp, ha, hl, ht, himp⟩ :=
    C4_attendance_summary_counts dbEx4 "b00000000000000000000001" (by decide)
  refine ⟨by decide, s, hs, hd, ?_, ?_, ?_, ?_, himp (by decide)⟩
  · rw [ht]; decide
  · rw [hp]; decide
  · rw [ha]; decide
  · rw [hl]; decide

/-- Modelled from the spec's words, for comparison with the code: a string
literally of the shape `YYYY-MM-DD` — four digits, dash, two digits,
dash, two digits. -/
def specFormYYYYMMDD (s : String) : Bool :=
  match s.data with
  | [a, b, c, d, e, f, g, h, i, j] =>
    isDig a && isDig b && isDig c && isDig d && e == '-' &&
    isDig f && isDig g && h == '-' && isDig i && isDig j
  | _ => false

theorem isDig_dchar (n : Nat) : isDig (dchar n) = true := by
  have h : n % 10 = 0 ∨ n % 10 = 1 ∨ n % 10 = 2 ∨ n % 10 = 3 ∨ n % 10 = 4 ∨
      n % 10 = 5 ∨ n % 10 = 6 ∨ n % 10 = 7 ∨ n % 10 = 8 ∨ n % 10 = 9 := by
    omega
  unfold dchar
  rcases h with h | h | h | h | h | h | h | h | h | h <;> rw [h] <;> decide

theorem specForm_formatDate (y m d : Nat) :
    specFormYYYYMMDD (formatDate y m d) = true := by
  unfold specFormYYYYMMDD formatDate
  simp [isDig_dchar]

theorem normalize_date_ok_shape {s out : String}
    (h : normalize_date s = .ok out) : specFormYYYYMMDD out = true := by
  unfold normalize_date at h
  cases hp : strptimeYMD s with
  | none =>
    rw [hp] at h
    simp at h
  | some t =>
    obtain ⟨y, m, d⟩ := t
    rw [hp] at h
    have hout : formatDate y m d = out := Except.ok.inj h
    rw [← hout]
    exact specForm_formatDate y m d

/-- C6 counterexample: the claim "a driver_id that is not a valid
identifier shape, or a date string not of the form YYYY-MM-DD, always
yields HTTP 400" fails at several concrete requests, each of which
forces one qualifier of the amended claim.  `"2024-1-5"` is not of the
literal `YYYY-MM-DD` shape, yet both `GET /attendance` and
`POST /attendance` accept it with 200 (strptime's `%m`/`%d` also match
single digits) and canonicalize it to `"2024-01-05"`; empty-string
parameters on `GET /attendance` are invalid as identifier or date
shapes, yet are ignored with 200; and a `POST` whose date is malformed
but whose well-shaped driver is absent yields 404, not 400. -/
theorem C6_counterexample :
    specFormYYYYMMDD "2024-1-5" = false ∧
    normalize_date "2024-1-5" = .ok "2024-01-05" ∧
    get_attendance (some "2024-1-5") none ⟨[], []⟩ = .ok [] ∧
    (mark_attendance ⟨"b00000000000000000000001", "2024-1-5", .present, none⟩
        dbEx2 0 "c00000000000000000000001").2 =
      .ok (some [("driver_id", vStr "b00000000000000000000001"),
                 ("date", vStr "2024-01-05"), ("status", vStr "present"),
                 ("notes", vNull), ("id", vStr "c00000000000000000000001")]) ∧
    isValidObjectId "" = false ∧
    get_attendance none (some "") ⟨[], []⟩ = .ok [] ∧
    normalize_date "" = .error ⟨400, "Invalid date format. Use YYYY-MM-DD"⟩ ∧
    get_attendance (some "") none ⟨[], []⟩ = .ok [] ∧
    normalize_date "not-a-date" =
      .error ⟨400, "Invalid date format. Use YYYY-MM-DD"⟩ ∧
    mark_attendance ⟨"d00000000000000000000001", "not-a-date", .present, none⟩
        ⟨[], []⟩ 0 "c00000000000000000000001" =
      (⟨[], []⟩, .error ⟨404, "Driver not found"⟩) := by
  exact ⟨by decide, by decide, by decide, by decide, by decide, by decide,
    by decide, by decide, by decide, by decide⟩

theorem dateFilter_error {o : Option String} {e : HTTPError}
    (h : dateFilter o = .error e) :
    e = ⟨400, "Invalid date format. Use YYYY-MM-DD"⟩ := by
  cases o with
  | none => simp [dateFilter] at h
  | some t =>
    by_cases ht : (t == "") = true
    · simp [dateFilter, ht] at h
    · have htf : (t == "") = false := by simpa using ht
      simp only [dateFilter, htf, Bool.not_false, if_true] at h
      cases hn : normalize_date t with
      | ok nn =>
        rw [hn] at h
        simp at h
      | error e3 =>
        rw [hn] at h
        rw [← Except.error.inj h]
        exact normalize_date_error hn

/-- C6 (amended): on `POST /attendance`, an unparseable `driver_id`
always yields 400, and a date rejected by `strptime("%Y-%m-%d")` yields
400 once the driver exists (driver validation precedes date
validation); on `GET /attendance`, a non-empty unparseable `driver_id`
always yields a 400 error whatever the date parameter, and a non-empty
rejected date always yields 400 whatever the driver parameter; every
`normalize_date` rejection is a 400, and every accepted date is
canonicalized to the zero-padded `YYYY-MM-DD` shape (strptime also
accepts unpadded months and days such as `"2024-1-5"`). -/
theorem C6_amended_validation (p : AttendanceCreate) (db : DB) (now : Nat)
    (fresh : String) (s ds out : String) (dsq dri : Option String)
    (e : HTTPError) :
    (isValidObjectId p.driver_id = false →
      mark_attendance p db now fresh = (db, .error ⟨400, "Invalid driver_id"⟩)) ∧
    (isValidObjectId p.driver_id = true →
      (find_one db.driver [("_id", vOid (oidCanon p.driver_id))]).isSome = true →
      normalize_date p.date = .error e →
      mark_attendance p db now fresh = (db, .error e) ∧ e.status = 400) ∧
    (s ≠ "" → isValidObjectId s = false →
      ∃ e2, get_attendance dsq (some s) db = .error e2 ∧ e2.status = 400) ∧
    (ds ≠ "" → normalize_date ds = .error e →
      get_attendance (some ds) dri db = .error e ∧ e.status = 400) ∧
    (normalize_date ds = .error e →
      e = ⟨400, "Invalid date format. Use YYYY-MM-DD"⟩) ∧
    (normalize_date ds = .ok out → specFormYYYYMMDD out = true) := by
  refine ⟨?_, ?_, ?_, ?_, fun h => normalize_date_error h,
    fun h => normalize_date_ok_shape h⟩
  · intro hv
    simp [mark_attendance, hv]
  · intro hv hdrv hn
    obtain ⟨w, hw⟩ := Option.isSome_iff_exists.mp hdrv
    refine ⟨by simp [mark_attendance, hv, hw, hn], ?_⟩
    rw [normalize_date_error hn]
  · intro hs hv
    cases hdf : dateFilter dsq with
    | error e3 =>
      refine ⟨e3, by simp [get_attendance, hdf], ?_⟩
      rw [dateFilter_error hdf]
    | ok f1 =>
      have hsb : (s == "") = false := by simpa using hs
      exact ⟨⟨400, "Invalid driver_id"⟩,
        by simp [get_attendance, hdf, driverFilter, hsb, hv], rfl⟩
  · intro hds hn
    have hdsb : (ds == "") = false := by simpa using hds
    refine ⟨by simp [get_attendance, dateFilter, hdsb, hn], ?_⟩
    rw [normalize_date_error hn]

theorem C6_amended_validation_witness :
    mark_attendance ⟨"abc", "2024-01-05", .present, none⟩ dbEx2 0
        "c00000000000000000000001" =
      (dbEx2, .error ⟨400, "Invalid driver_id"⟩) ∧
    mark_attendance ⟨"b00000000000000000000001", "2024/01/01", .present, none⟩
        dbEx2 0 "c00000000000000000000001" =
      (dbEx2, .error ⟨400, "Invalid date format. Use YYYY-MM-DD"⟩) ∧
    get_attendance (some "2024-01-01") (some "xyz") dbEx2 =
      .error ⟨400, "Invalid driver_id"⟩ ∧
    get_attendance (some "not-a-date") (some "b00000000000000000000001") dbEx2 =
      .error ⟨400, "Invalid date format. Use YYYY-MM-DD"⟩ ∧
    specFormYYYYMMDD "2024-01-05" = true := by
  refine ⟨?_, ?_, ?_, ?_, ?_⟩
  · exact (C6_amended_validation ⟨"abc", "2024-01-05", .present, none⟩ dbEx2 0
      "c00000000000000000000001" "x" "d" "o" none none ⟨400, "x"⟩).1 (by decide)
  · exact ((C6_amended_validation
      ⟨"b00000000000000000000001", "2024/01/01", .present, none⟩ dbEx2 0
      "c00000000000000000000001" "x" "d" "o" none none
      ⟨400, "Invalid date format. Use YYYY-MM-DD"⟩).2.1
      (by decide) (by decide) (by decide)).1
  · obtain ⟨e2, he2, hst2⟩ := (C6_amended_validation
      ⟨"abc", "2024-01-05", .present, none⟩ dbEx2 0
      "c00000000000000000000001" "xyz" "d" "o" (some "2024-01-01") none
      ⟨400, "x"⟩).2.2.1 (by decide) (by decide)
    have hconc : get_attendance (some "2024-01-01") (some "xyz") dbEx2 =
        .error ⟨400, "Invalid driver_id"⟩ := by decide
    exact hconc
  · exact ((C6_amended_validation ⟨"abc", "2024-01-05", .present, none⟩ dbEx2 0
      "c00000000000000000000001" "x" "not-a-date" "o" none
      (some "b00000000000000000000001")
      ⟨400, "Invalid date format. Use YYYY-MM-DD"⟩).2.2.2.1
      (by decide) (by decide)).1
  · exact (C6_amended_validation ⟨"abc", "2024-01-05", .present, none⟩ dbEx2 0
      "c00000000000000000000001" "x" "2024-01-05" "2024-01-05" none none
      ⟨400, "x"⟩).2.2.2.2.2 (by decide)

theorem beq_symm_false {a b : String} (h : (a == b) = false) : (b == a) = false := by
  have hne : a ≠ b := by simpa using h
  simp [hne.symm]

theorem applySet_mark_eq (doc : Doc) (p : AttendanceCreate) (n : String) (now : Nat) :
    applySet doc (markData p n ++ [("updated_at", vTime now)]) =
      dictSet (dictSet (dictSet (dictSet (dictSet doc "driver_id" (vStr p.driver_id))
        "date" (vStr n)) "status" (vStr p.status.toStr)) "notes" (optVal p.notes))
        "updated_at" (vTime now) := rfl

theorem applySet_mark_fields (doc : Doc) (p : AttendanceCreate) (n : String) (now : Nat) :
    getField (applySet doc (markData p n ++ [("updated_at", vTime now)]))
      "driver_id" = some (vStr p.driver_id) ∧
    getField (applySet doc (markData p n ++ [("updated_at", vTime now)]))
      "date" = some (vStr n) ∧
    getField (applySet doc (markData p n ++ [("updated_at", vTime now)]))
      "status" = some (vStr p.status.toStr) ∧
    getField (applySet doc (markData p n ++ [("updated_at", vTime now)]))
      "notes" = some (optVal p.notes) ∧
    getField (applySet doc (markData p n ++ [("updated_at", vTime now)]))
      "updated_at" = some (vTime now) ∧
    ∀ k, (k == "driver_id") = false → (k == "date") = false →
      (k == "status") = false → (k == "notes") = false →
      (k == "updated_at") = false →
      getField (applySet doc (markData p n ++ [("updated_at", vTime now)])) k =
        getField doc k := by
  rw [applySet_mark_eq]
  refine ⟨?_, ?_, ?_, ?_, ?_, ?_⟩
  · rw [getField_dictSet_other _ _ _ _ (by decide),
      getField_dictSet_other _ _ _ _ (by decide),
      getField_dictSet_other _ _ _ _ (by decide),
      getField_dictSet_other _ _ _ _ (by decide)]
    exact getField_dictSet_self _ _ _
  · rw [getField_dictSet_other _ _ _ _ (by decide),
      getField_dictSet_other _ _ _ _ (by decide),
      getField_dictSet_other _ _ _ _ (by decide)]
    exact getField_dictSet_self _ _ _
  · rw [getField_dictSet_other _ _ _ _ (by decide),
      getField_dictSet_other _ _ _ _ (by decide)]
    exact getField_dictSet_self _ _ _
  · rw [getField_dictSet_other _ _ _ _ (by decide)]
    exact getField_dictSet_self _ _ _
  · exact getField_dictSet_self _ _ _
  · intro k h1 h2 h3 h4 h5
    rw [getField_dictSet_other _ _ _ _ (beq_symm_false h5),
      getField_dictSet_other _ _ _ _ (beq_symm_false h4),
      getField_dictSet_other _ _ _ _ (beq_symm_false h3),
      getField_dictSet_other _ _ _ _ (beq_symm_false h2),
      getField_dictSet_other _ _ _ _ (beq_symm_false h1)]

theorem mark_insert_eq (p : AttendanceCreate) (db : DB) (now : Nat)
    (fresh n : String)
    (hv : isValidObjectId p.driver_id = true)
    (hdrv : (find_one db.driver [("_id", vOid (oidCanon p.driver_id))]).isSome = true)
    (hn : normalize_date p.date = .ok n)
    (hnone : find_one db.attendance
      [("driver_id", vStr p.driver_id), ("date", vStr n)] = none)
    (hfr : ∀ doc ∈ db.attendance, matchesFilter doc [("_id", vOid fresh)] = false)
    (hcanon : oidCanon fresh = fresh) :
    mark_attendance p db now fresh =
      ({ db with attendance := db.attendance ++ [("_id", vOid fresh) :: markData p n] },
       .ok (some (serialize_id (("_id", vOid fresh) :: markData p n)))) := by
  obtain ⟨w, hw⟩ := Option.isSome_iff_exists.mp hdrv
  simp only [mark_attendance, hv, if_true, hw, hn, hnone, create_document]
  rw [hcanon]
  have hfind : find_one (db.attendance ++ [("_id", vOid fresh) :: markData p n])
      [("_id", vOid fresh)] = some (("_id", vOid fresh) :: markData p n) := by
    unfold find_one
    rw [find?_append_of_none (find?_all_false hfr)]
    apply List.find?_cons_of_pos
    rw [matchesFilter_single, getField_cons_pos (by simp)]
    exact beq_self_eq_true _
  rw [hfind, Option.map_some']

theorem mark_update_eq (p : AttendanceCreate) (db : DB) (now : Nat)
    (fresh n : String) (u : Doc) (iv : Value) (l1 l2 : List Doc)
    (hv : isValidObjectId p.driver_id = true)
    (hdrv : (find_one db.driver [("_id", vOid (oidCanon p.driver_id))]).isSome = true)
    (hn : normalize_date p.date = .ok n)
    (hex : find_one db.attendance
      [("driver_id", vStr p.driver_id), ("date", vStr n)] = some u)
    (hid : getField u "_id" = some iv)
    (hsplit : db.attendance = l1 ++ u :: l2)
    (h1f : ∀ x ∈ l1, matchesFilter x [("_id", iv)] = false) :
    mark_attendance p db now fresh =
      ({ db with attendance :=
          l1 ++ applySet u (markData p n ++ [("updated_at", vTime now)]) :: l2 },
       .ok (some (serialize_id
         (applySet u (markData p n ++ [("updated_at", vTime now)]))))) := by
  obtain ⟨w, hw⟩ := Option.isSome_iff_exists.mp hdrv
  have hpu : matchesFilter u [("_id", iv)] = true := by
    rw [matchesFilter_single, hid]
    exact beq_self_eq_true _
  simp only [mark_attendance, hv, if_true, hw, hn, hex, idValue, hid,
    Option.getD_some]
  rw [hsplit, update_one_append_of_none h1f, update_one_cons_pos hpu]
  have hidu : getField (applySet u (markData p n ++ [("updated_at", vTime now)]))
      "_id" = some iv := by
    rw [(applySet_mark_fields u p n now).2.2.2.2.2 "_id" (by decide) (by decide)
      (by decide) (by decide) (by decide)]
    exact hid
  have hfind : List.find? (fun doc => matchesFilter doc [("_id", iv)])
      (l1 ++ applySet u (markData p n ++ [("updated_at", vTime now)]) :: l2) =
      some (applySet u (markData p n ++ [("updated_at", vTime now)])) := by
    rw [find?_append_of_none (find?_all_false h1f)]
    apply List.find?_cons_of_pos
    rw [matchesFilter_single, hidu]
    exact beq_self_eq_true _
  show (_, Except.ok (Option.map serialize_id (find_one _ _))) = _
  unfold find_one
  rw [hfind, Option.map_some']

/-- C3: marking attendance for a pair that already has a record updates
that record in place — only `status`, `notes` and `updated_at` (set to the
current time) change, while `_id`, `driver_id`, `date` and every other
field keep their values — and returns the re-fetched record; for a pair
with no record it inserts a new document holding exactly `_id` plus the
four business fields (no `updated_at`) and returns the re-fetched
record. -/
theorem C3_mark_upsert_frame (p : AttendanceCreate) (now : Nat)
    (fresh n : String) (db1 db2 : DB) (u : Doc) (iv : Value)
    (hv : isValidObjectId p.driver_id = true)
    (hn : normalize_date p.date = .ok n)
    (hdrv1 : (find_one db1.driver [("_id", vOid (oidCanon p.driver_id))]).isSome = true)
    (hex : find_one db1.attendance
      [("driver_id", vStr p.driver_id), ("date", vStr n)] = some u)
    (hid : getField u "_id" = some iv)
    (huniq : db1.attendance.countP
      (fun doc => matchesFilter doc [("_id", iv)]) = 1)
    (hdrv2 : (find_one db2.driver [("_id", vOid (oidCanon p.driver_id))]).isSome = true)
    (hnone : find_one db2.attendance
      [("driver_id", vStr p.driver_id), ("date", vStr n)] = none)
    (hfr : ∀ doc ∈ db2.attendance, matchesFilter doc [("_id", vOid fresh)] = false)
    (hcanon : oidCanon fresh = fresh) :
    (∃ l1 l2, db1.attendance = l1 ++ u :: l2 ∧
      mark_attendance p db1 now fresh =
        ({ db1 with attendance :=
            l1 ++ applySet u (markData p n ++ [("updated_at", vTime now)]) :: l2 },
         .ok (some (serialize_id
           (applySet u (markData p n ++ [("updated_at", vTime now)])))))) ∧
    getField (applySet u (markData p n ++ [("updated_at", vTime now)])) "_id" =
      getField u "_id" ∧
    getField (applySet u (markData p n ++ [("updated_at", vTime now)])) "driver_id" =
      getField u "driver_id" ∧
    getField (applySet u (markData p n ++ [("updated_at", vTime now)])) "date" =
      getField u "date" ∧
    getField (applySet u (markData p n ++ [("updated_at", vTime now)])) "status" =
      some (vStr p.status.toStr) ∧
    getField (applySet u (markData p n ++ [("updated_at", vTime now)])) "notes" =
      some (optVal p.notes) ∧
    getField (applySet u (markData p n ++ [("updated_at", vTime now)])) "updated_at" =
      some (vTime now) ∧
    (∀ k, (k == "_id") = false → (k == "driver_id") = false →
       (k == "date") = false → (k == "status") = false →
       (k == "notes") = false → (k == "updated_at") = false →
       getField (applySet u (markData p n ++ [("updated_at", vTime now)])) k =
         getField u k) ∧
    mark_attendance p db2 now fresh =
      ({ db2 with attendance := db2.attendance ++ [("_id", vOid fresh) :: markData p n] },
       .ok (some (serialize_id (("_id", vOid fresh) :: markData p n)))) ∧
    (("_id", vOid fresh) :: markData p n).map Prod.fst =
      ["_id", "driver_id", "date", "status", "notes"] := by
  have hexf : List.find? (fun doc => matchesFilter doc
      [("driver_id", vStr p.driver_id), ("date", vStr n)]) db1.attendance = some u := hex
  have hpm := List.find?_some hexf
  rw [matchesFilter_two] at hpm
  obtain ⟨hud, hudt⟩ : getField u "driver_id" = some (vStr p.driver_id) ∧
      getField u "date" = some (vStr n) := by simpa using hpm
  have hpu : matchesFilter u [("_id", iv)] = true := by
    rw [matchesFilter_single, hid]
    exact beq_self_eq_true _
  have hu_mem : u ∈ db1.attendance := List.mem_of_find?_eq_some hexf
  obtain ⟨l1, l2, hsplit, h1f, _h2f⟩ :=
    exists_decomp_of_countP_one hu_mem hpu huniq
  have hflds := applySet_mark_fields u p n now
  refine ⟨⟨l1, l2, hsplit,
      mark_update_eq p db1 now fresh n u iv l1 l2 hv hdrv1 hn hex hid hsplit h1f⟩,
    ?_, ?_, ?_, hflds.2.2.1, hflds.2.2.2.1, hflds.2.2.2.2.1,
    fun k _ h1 h2 h3 h4 h5 => hflds.2.2.2.2.2 k h1 h2 h3 h4 h5,
    mark_insert_eq p db2 now fresh n hv hdrv2 hn hnone hfr hcanon,
    rfl⟩
  · exact hflds.2.2.2.2.2 "_id" (by decide) (by decide) (by decide) (by decide)
      (by decide)
  · exact hflds.1.trans hud.symm
  · exact hflds.2.1.trans hudt.symm

/-- Concrete payload and states used to exercise C3. -/
def pEx3 : AttendanceCreate :=
  ⟨"b00000000000000000000001", "2024-01-05", .late, some "x"⟩

/-- Existing record for the pair, with an extra field to exercise the
frame property. -/
def uEx3 : Doc :=
  [("_id", vOid "a00000000000000000000001"),
   ("driver_id", vStr "b00000000000000000000001"),
   ("date", vStr "2024-01-05"), ("status", vStr "present"), ("notes", vNull),
   ("extra", vStr "keep")]

def dbEx3 : DB := { driver := dbEx2.driver, attendance := [uEx3] }

theorem C3_mark_upsert_frame_witness :
    getField (applySet uEx3 (markData pEx3 "2024-01-05" ++
      [("updated_at", vTime 7)])) "status" = some (vStr "late") ∧
    getField (applySet uEx3 (markData pEx3 "2024-01-05" ++
      [("updated_at", vTime 7)])) "notes" = some (vStr "x") ∧
    getField (applySet uEx3 (markData pEx3 "2024-01-05" ++
      [("updated_at", vTime 7)])) "updated_at" = some (vTime 7) ∧
    getField (applySet uEx3 (markData pEx3 "2024-01-05" ++
      [("updated_at", vTime 7)])) "_id" = getField uEx3 "_id" ∧
    getField (applySet uEx3 (markData pEx3 "2024-01-05" ++
      [("updated_at", vTime 7)])) "extra" = getField uEx3 "extra" ∧
    mark_attendance pEx3 dbEx2 7 "c00000000000000000000001" =
      ({ dbEx2 with attendance := dbEx2.attendance ++
          [("_id", vOid "c00000000000000000000001") :: markData pEx3 "2024-01-05"] },
       .ok (some (serialize_id
         (("_id", vOid "c00000000000000000000001") :: markData pEx3 "2024-01-05")))) := by
  have h := C3_mark_upsert_frame pEx3 7 "c00000000000000000000001" "2024-01-05"
    dbEx3 dbEx2 uEx3 (vOid "a00000000000000000000001")
    (by decide) (by decide) (by decide) (by decide) (by decide) (by decide)
    (by decide) (by decide) (by intro doc hdoc; cases hdoc) (by decide)
  exact ⟨h.2.2.2.2.1, h.2.2.2.2.2.1, h.2.2.2.2.2.2.1,
    h.2.1,
    h.2.2.2.2.2.2.2.1 "extra" (by decide) (by decide) (by decide) (by decide)
      (by decide) (by decide),
    h.2.2.2.2.2.2.2.2.1⟩

/-- One `POST /attendance` call in a sequence for a fixed driver: the
request's date string, status and notes, together with the call's wall
clock time and the ObjectId the store would generate if the call
inserts. -/
structure MarkCall where
  date : String
  status : Status
  notes : Option String
  now : Nat
  fresh : String
  deriving DecidableEq, Repr

/-- Run a sequence of marking calls for driver `d`, threading the store
state; `none` when some call raises (so `some` means every call
succeeded). -/
def runMarks (d : String) (calls : List MarkCall) (db : DB) : Option DB :=
  match calls with
  | [] => some db
  | c :: cs =>
    match mark_attendance ⟨d, c.date, c.status, c.notes⟩ db c.now c.fresh with
    | (db1, .ok _) => runMarks d cs db1
    | (_, .error _) => none

theorem runMarks_loop (d n : String) (drv : List Doc) (pre : List Doc) (f0 : String)
    (hv : isValidObjectId d = true)
    (hdrv : (find_one drv [("_id", vOid (oidCanon d))]).isSome = true)
    (hpre_pair : ∀ doc ∈ pre, matchesFilter doc
      [("driver_id", vStr d), ("date", vStr n)] = false)
    (hpre_id : ∀ doc ∈ pre, matchesFilter doc [("_id", vOid f0)] = false) :
    ∀ (cs : List MarkCall) (uk : Doc),
      (∀ c ∈ cs, normalize_date c.date = .ok n) →
      matchesFilter uk [("driver_id", vStr d), ("date", vStr n)] = true →
      getField uk "_id" = some (vOid f0) →
      ∃ u2, runMarks d cs ⟨drv, pre ++ [uk]⟩ = some ⟨drv, pre ++ [u2]⟩ ∧
        matchesFilter u2 [("driver_id", vStr d), ("date", vStr n)] = true ∧
        getField u2 "_id" = some (vOid f0) ∧
        ((cs = [] ∧ u2 = uk) ∨
         (∃ c, cs.getLast? = some c ∧
           getField u2 "status" = some (vStr c.status.toStr) ∧
           getField u2 "notes" = some (optVal c.notes))) := by
  intro cs
  induction cs with
  | nil =>
    intro uk _ hup huid
    exact ⟨uk, rfl, hup, huid, .inl ⟨rfl, rfl⟩⟩
  | cons c cs ih =>
    intro uk hdates hup huid
    have hn : normalize_date c.date = .ok n := hdates c (List.mem_cons_self c cs)
    have hex : find_one (pre ++ [uk])
        [("driver_id", vStr d), ("date", vStr n)] = some uk := by
      unfold find_one
      rw [find?_append_of_none (find?_all_false hpre_pair)]
      exact List.find?_cons_of_pos _ hup
    have hstep := mark_update_eq ⟨d, c.date, c.status, c.notes⟩ ⟨drv, pre ++ [uk]⟩
      c.now c.fresh n uk (vOid f0) pre [] hv hdrv hn hex huid rfl hpre_id
    have hflds := applySet_mark_fields uk ⟨d, c.date, c.status, c.notes⟩ n c.now
    have hrun : runMarks d (c :: cs) ⟨drv, pre ++ [uk]⟩ =
        runMarks d cs ⟨drv, pre ++
          [applySet uk (markData ⟨d, c.date, c.status, c.notes⟩ n ++
            [("updated_at", vTime c.now)])]⟩ := by
      simp only [runMarks, hstep]
    have hup1 : matchesFilter (applySet uk
        (markData ⟨d, c.date, c.status, c.notes⟩ n ++
          [("updated_at", vTime c.now)]))
        [("driver_id", vStr d), ("date", vStr n)] = true := by
      rw [matchesFilter_two, hflds.1, hflds.2.1]
      simp
    have huid1 : getField (applySet uk
        (markData ⟨d, c.date, c.status, c.notes⟩ n ++
          [("updated_at", vTime c.now)])) "_id" = some (vOid f0) := by
      rw [hflds.2.2.2.2.2 "_id" (by decide) (by decide) (by decide) (by decide)
        (by decide)]
      exact huid
    obtain ⟨u2, hrun2, hup2, hid2, hlast⟩ :=
      ih _ (fun c2 hc2 => hdates c2 (List.mem_cons_of_mem _ hc2)) hup1 huid1
    refine ⟨u2, hrun.trans hrun2, hup2, hid2, .inr ?_⟩
    rcases hlast with ⟨hcs, hu2⟩ | ⟨c2, hl, hst, hnt⟩
    · subst hcs
      subst hu2
      exact ⟨c, rfl, hflds.2.2.1, hflds.2.2.2.1⟩
    · cases cs with
      | nil => simp at hl
      | cons x xs =>
        refine ⟨c2, ?_, hst, hnt⟩
        rw [List.getLast?_cons_cons]
        exact hl

/-- C1: starting from a state with no attendance record for the pair
`(d, n)`, any non-empty sequence of successful marking calls for that
pair (same driver, every date normalizing to `n`) leaves exactly one
attendance record matching the pair, and its `status` and `notes`
equal the last call's input. -/
theorem C1_upsert_single_record (d n : String) (c0 : MarkCall)
    (cs : List MarkCall) (db0 : DB)
    (hv : isValidObjectId d = true)
    (hdrv : (find_one db0.driver [("_id", vOid (oidCanon d))]).isSome = true)
    (hdates : ∀ c ∈ c0 :: cs, normalize_date c.date = .ok n)
    (hnopair : ∀ doc ∈ db0.attendance, matchesFilter doc
      [("driver_id", vStr d), ("date", vStr n)] = false)
    (hfresh : ∀ doc ∈ db0.attendance, matchesFilter doc
      [("_id", vOid c0.fresh)] = false)
    (hcanon : oidCanon c0.fresh = c0.fresh) :
    ∃ db1 u2 c, runMarks d (c0 :: cs) db0 = some db1 ∧
      (c0 :: cs).getLast? = some c ∧
      db1.attendance.filter (fun doc => matchesFilter doc
        [("driver_id", vStr d), ("date", vStr n)]) = [u2] ∧
      getField u2 "status" = some (vStr c.status.toStr) ∧
      getField u2 "notes" = some (optVal c.notes) := by
  have hnone : find_one db0.attendance
      [("driver_id", vStr d), ("date", vStr n)] = none := find?_all_false hnopair
  have hstep := mark_insert_eq ⟨d, c0.date, c0.status, c0.notes⟩ db0 c0.now
    c0.fresh n hv hdrv (hdates c0 (List.mem_cons_self c0 cs)) hnone hfresh hcanon
  have hrun : runMarks d (c0 :: cs) db0 =
      runMarks d cs ⟨db0.driver, db0.attendance ++
        [("_id", vOid c0.fresh) :: markData ⟨d, c0.date, c0.status, c0.notes⟩ n]⟩ := by
    simp only [runMarks, hstep]
  have hup1 : matchesFilter (("_id", vOid c0.fresh) ::
      markData ⟨d, c0.date, c0.status, c0.notes⟩ n)
      [("driver_id", vStr d), ("date", vStr n)] = true := by
    rw [matchesFilter_two]
    rw [show getField (("_id", vOid c0.fresh) ::
        markData ⟨d, c0.date, c0.status, c0.notes⟩ n) "driver_id" =
        some (vStr d) from rfl]
    rw [show getField (("_id", vOid c0.fresh) ::
        markData ⟨d, c0.date, c0.status, c0.notes⟩ n) "date" =
        some (vStr n) from rfl]
    simp
  obtain ⟨u2, hrun2, hup2, _hid2, hlast⟩ := runMarks_loop d n db0.driver
    db0.attendance c0.fresh hv hdrv hnopair hfresh cs
    (("_id", vOid c0.fresh) :: markData ⟨d, c0.date, c0.status, c0.notes⟩ n)
    (fun c2 hc2 => hdates c2 (List.mem_cons_of_mem _ hc2)) hup1 rfl
  have hfilter : (db0.attendance ++ [u2]).filter (fun doc => matchesFilter doc
      [("driver_id", vStr d), ("date", vStr n)]) = [u2] := by
    rw [List.filter_append,
      List.filter_eq_nil_iff.mpr (fun x hx => by simp [hnopair x hx]),
      List.filter_cons_of_pos (p := fun doc => matchesFilter doc
        [("driver_id", vStr d), ("date", vStr n)]) hup2]
    rfl
  rcases hlast with ⟨hcs, hu2⟩ | ⟨c2, hl, hst, hnt⟩
  · subst hcs
    refine ⟨_, u2, c0, hrun.trans hrun2, rfl, hfilter, ?_, ?_⟩
    · rw [hu2]
      rfl
    · rw [hu2]
      rfl
  · cases cs with
    | nil => simp at hl
    | cons x xs =>
      refine ⟨_, u2, c2, hrun.trans hrun2, ?_, hfilter, hst, hnt⟩
      rw [List.getLast?_cons_cons]
      exact hl

/-- Concrete two-call sequence used to exercise C1; the second call spells
the same day with an unpadded date string. -/
def c0Ex : MarkCall := ⟨"2024-01-05", .present, none, 0, "c00000000000000000000001"⟩

def c1Ex : MarkCall := ⟨"2024-1-5", .late, some "x", 1, "c00000000000000000000002"⟩

/-- The single attendance record left by the two calls. -/
def uExF : Doc :=
  [("_id", vOid "c00000000000000000000001"),
   ("driver_id", vStr "b00000000000000000000001"),
   ("date", vStr "2024-01-05"), ("status", vStr "late"), ("notes", vStr "x"),
   ("updated_at", vTime 1)]

def dbExF : DB := { driver := dbEx2.driver, attendance := [uExF] }

theorem C1_upsert_single_record_witness :
    runMarks "b00000000000000000000001" [c0Ex, c1Ex] dbEx2 = some dbExF ∧
    dbExF.attendance.filter (fun doc => matchesFilter doc
      [("driver_id", vStr "b00000000000000000000001"),
       ("date", vStr "2024-01-05")]) = [uExF] ∧
    getField uExF "status" = some (vStr "late") ∧
    getField uExF "notes" = some (vStr "x") := by
  obtain ⟨db1, u2, c, hrun, hl, hf, hs, hn2⟩ :=
    C1_upsert_single_record "b00000000000000000000001" "2024-01-05" c0Ex [c1Ex]
      dbEx2 (by decide) (by decide) (by decide) (by decide) (by decide) (by decide)
  have hdb : db1 = dbExF := by
    have h1 : runMarks "b00000000000000000000001" [c0Ex, c1Ex] dbEx2 =
        some dbExF := by decide
    exact Option.some.inj (hrun.symm.trans h1)
  subst hdb
  have hc : c = c1Ex := by
    have h2 : ([c0Ex, c1Ex] : List MarkCall).getLast? = some c1Ex := by decide
    exact Option.some.inj (hl.symm.trans h2)
  subst hc
  have hu : u2 = uExF := by
    have h3 : dbExF.attendance.filter (fun doc => matchesFilter doc
        [("driver_id", vStr "b00000000000000000000001"),
         ("date", vStr "2024-01-05")]) = [uExF] := by decide
    exact (List.cons.inj (hf.symm.trans h3)).1
  subst hu
  exact ⟨hrun, hf, hs, hn2⟩

end DriverAttendance
